import Mathlib

/-!
Verification of the Active Storage server request pipeline (`src/app.rs`).

The development embeds the request orchestration of `app.rs` as executable
Lean definitions: the data model (`RequestData`, `Response`), the filter
pipeline, the cached `download_object` wrapper, the `operation` function with
its zero-copy assertions, and the `operation_handler` that sequences resource
admission, S3 fetch and kernel dispatch.  Stateful behaviour (semaphore
acquisition, network I/O, thread-pool dispatch) is made observable through an
explicit event trace.  Modules of the repository that are not part of the
provided sources (`filter_pipeline.rs`, `models.rs`, `resource_manager.rs`,
`types.rs`, `error.rs`) are modelled from the specification and marked as
such in their doc comments.
-/

namespace Reductionist

/-- Numeric element types supported by the server (`models::DType`, §3). -/
inductive DType where
  | int32
  | int64
  | uint32
  | uint64
  | float32
  | float64
  deriving DecidableEq, Repr

/-- Byte orders (`types::ByteOrder`). -/
inductive ByteOrder where
  | big
  | little
  deriving DecidableEq, Repr

/-- Compression algorithms (§3). -/
inductive Compression where
  | gzip
  | zlib
  deriving DecidableEq, Repr

/-- Filters; the only filter defined is `shuffle` with an `element_size`
parameter (§3). -/
inductive Filter where
  | shuffle (element_size : Nat)
  deriving DecidableEq, Repr

/-- Modelled from the spec: `element_size(dtype)` of §4.1 (`models.rs` is not
among the provided sources).  Every dtype has a fixed element size in
bytes. -/
def element_size : DType → Nat
  | .int32 => 4
  | .int64 => 8
  | .uint32 => 4
  | .uint64 => 8
  | .float32 => 4
  | .float64 => 8

/-- The request body (`models::RequestData`, §3), restricted to the fields
that the orchestration in `app.rs` reads. -/
structure RequestData where
  source : String
  bucket : String
  object : String
  dtype : DType
  byte_order : Option ByteOrder := none
  offset : Option Nat := none
  size : Option Nat := none
  shape : List Nat := []
  compression : Option Compression := none
  filters : Option (List Filter) := none
  deriving DecidableEq, Repr

/-- The reduction result (`models::Response`, §3): raw bytes plus the
metadata echoed into the HTTP headers. -/
structure Response where
  body : List Nat
  dtype : DType
  shape : List Nat
  count : Nat
  deriving DecidableEq, Repr

/-- A heap byte buffer (`bytes::Bytes` / `Vec<u8>`): the backing pointer
identity together with the byte contents.  Pointer equality of two buffers
models the zero-copy assertions of `app::operation`. -/
structure Bytes where
  ptr : Nat
  data : List Nat
  deriving DecidableEq, Repr

/-- The error taxonomy (§7; `error.rs` is not among the provided sources, the
variants are modelled from the spec's table). -/
inductive ActiveStorageError where
  | shapeMismatch
  | invalidSelection
  | shuffleSizeMismatch
  | decompressionFailed
  | filterFailed
  | memoryLimitExceeded
  | taskLimitExceeded
  | connectionLimitExceeded
  | s3NotFound
  | s3Unauthorized
  | s3Transport
  | cacheError
  | unsupportedOperation (operation : String)
  deriving DecidableEq, Repr

/-- Modelled from the spec: the HTTP status mapping of §7 (`error.rs` is not
among the provided sources). -/
def errorStatus : ActiveStorageError → Nat
  | .shapeMismatch => 400
  | .invalidSelection => 400
  | .shuffleSizeMismatch => 400
  | .decompressionFailed => 400
  | .filterFailed => 400
  | .memoryLimitExceeded => 507
  | .taskLimitExceeded => 500
  | .connectionLimitExceeded => 500
  | .s3NotFound => 404
  | .s3Unauthorized => 401
  | .s3Transport => 502
  | .cacheError => 500
  | .unsupportedOperation _ => 400

/-- Modelled from the spec: `models::validate_raw_size` (§4.1).  Validation
fails with `ShapeMismatch` if `element_size × ∏ shape ≠ len`. -/
def validate_raw_size (len : Nat) (dtype : DType) (shape : List Nat) :
    Except ActiveStorageError Unit :=
  if element_size dtype * shape.prod = len then .ok () else .error .shapeMismatch

/-- Modelled from the spec: the inverse shuffle of §4.2 — given element size
`s` and byte count `N = s·n`, the `i`-th output byte is
`input[(i mod s)·n + (i div s)]`. -/
def unshuffle (s n : Nat) (input : List Nat) : List Nat :=
  (List.range (s * n)).map (fun i => input.getD ((i % s) * n + i / s) 0)

/-- Modelled from the spec: the inverse of a single filter (§4.2).  For
`shuffle` the element size must equal the dtype's element size and must
divide the byte count, otherwise `ShuffleSizeMismatch`. -/
def applyFilterInverse (dtype : DType) (f : Filter) (bytes : List Nat) :
    Except ActiveStorageError (List Nat) :=
  match f with
  | .shuffle s =>
    if s = element_size dtype ∧ bytes.length % s = 0 then
      .ok (unshuffle s (bytes.length / s) bytes)
    else
      .error .shuffleSizeMismatch

/-- Modelled from the spec: apply the inverses of the given filters, in the
order given (the caller passes the request's filter list reversed, §4.2). -/
def applyFilterInverses (dtype : DType) :
    List Filter → List Nat → Except ActiveStorageError (List Nat)
  | [], bytes => .ok bytes
  | f :: fs, bytes =>
    match applyFilterInverse dtype f bytes with
    | .ok bytes1 => applyFilterInverses dtype fs bytes1
    | .error e => .error e

/-- Modelled from the spec: `filter_pipeline::filter_pipeline` (§4.2;
`filter_pipeline.rs` is not among the provided sources).  Decompress first if
compression is set, then apply the inverse of each filter in reverse order of
the request's filter list.  If both compression and filters are absent the
input buffer is returned unchanged, preserving buffer identity; otherwise the
result lives in a freshly allocated buffer.  The decompression algorithms
themselves (RFC 1950/1952) are taken as a parameter `decomp`. -/
def filter_pipeline (decomp : Compression → List Nat → Option (List Nat))
    (rd : RequestData) (data : Bytes) : Except ActiveStorageError Bytes :=
  match rd.compression, rd.filters with
  | none, none => .ok data
  | comp, filts =>
    let step1 : Except ActiveStorageError (List Nat) :=
      match comp with
      | none => .ok data.data
      | some c =>
        match decomp c data.data with
        | some out => .ok out
        | none => .error .decompressionFailed
    match step1 with
    | .error e => .error e
    | .ok bytes1 =>
      match applyFilterInverses rd.dtype (filts.getD []).reverse bytes1 with
      | .error e => .error e
      | .ok bytes2 => .ok ⟨data.ptr + data.data.length + 1, bytes2⟩

/-- Modelled from the spec: transferring ownership of the byte buffer to a
mutable contiguous region (`Vec<u8>: From<Bytes>`, §4.8 step 6 and the
zero-copy design note: "still no copy", the backing pointer is preserved). -/
def bytesIntoVec (b : Bytes) : Bytes := b

/-- The outcome of the synchronous part of a request: a Rust panic (from a
failed `assert_eq!`), an `Err(ActiveStorageError)`, or an `Ok(Response)`. -/
inductive OpOutcome where
  | panicked
  | err (e : ActiveStorageError)
  | ok (r : Response)
  deriving DecidableEq, Repr

/-- Observable events of a request's execution, in program order:
semaphore traffic, the S3 download, thread-pool dispatch, size validation
and the kernel invocation (which records the buffer handed to it). -/
inductive Event where
  | acquireMemory (permits : Nat)
  | releaseMemory
  | getClient
  | acquireConn
  | startDownload
  | endDownload
  | releaseConn
  | acquireTask
  | releaseTask
  | rayonSpawn
  | validateRawSize (len : Nat)
  | runKernel (buf : Bytes)
  deriving DecidableEq, Repr

/-- The environment a request executes in: whether each semaphore admits the
request, the disk cache's answer for the request's key, the outcome of the
network fetch, the decompression algorithms and the reduction kernel
(`T::execute`, generic in `operation_handler::<T>`). -/
structure Env where
  memGrant : Bool
  connGrant : Bool
  taskGrant : Bool
  cache : Option Bytes
  fetched : Except ActiveStorageError Bytes
  decomp : Compression → List Nat → Option (List Nat)
  exec : RequestData → Bytes → Except ActiveStorageError Response

/-- Embed a kernel's `Result<Response, ActiveStorageError>` into the request
outcome (kernels return errors, they do not panic). -/
def outcomeOfExcept : Except ActiveStorageError Response → OpOutcome
  | .ok r => .ok r
  | .error e => .err e

/-- The inner body of `app::download_object` (lines 182–199): acquire an S3
connection permit, perform the ranged GET while holding it, and release the
permit when the function returns (the `_conn_permits` binding is dropped at
scope exit, on success and on error alike). -/
def download_object_inner (env : Env) :
    List Event × Except ActiveStorageError Bytes :=
  if env.connGrant then
    match env.fetched with
    | .ok b =>
      ([.acquireConn, .startDownload, .endDownload, .releaseConn], .ok b)
    | .error e =>
      ([.acquireConn, .startDownload, .releaseConn], .error e)
  else
    ([], .error .connectionLimitExceeded)

/-- `app::download_object` as actually invoked: the `#[io_cached]` wrapper
(lines 175–181) first consults the disk cache under the computed key and only
calls the inner function on a miss. -/
def download_object (env : Env) :
    List Event × Except ActiveStorageError Bytes :=
  match env.cache with
  | some b => ([], .ok b)
  | none => download_object_inner env

/-- The disk cache key of the `#[io_cached]` wrapper on `download_object`
(line 180): `format!("{:?},{:?},{:?},{:?}", client, request_data,
resource_manager, mem_permits)` — the comma-joined Debug renderings of all
four arguments, not of the request alone. -/
def download_object_cache_key
    (clientDbg requestDbg rmDbg permitsDbg : String) : String :=
  clientDbg ++ "," ++ requestDbg ++ "," ++ rmDbg ++ "," ++ permitsDbg

/-- Modelled from the spec: the derived Debug rendering of `ResourceManager`
(`resource_manager.rs` is not among the provided sources; §4.7 describes
three counting semaphores).  A Tokio semaphore's Debug output shows its
current number of available permits, so the rendering varies with the
semaphores' instantaneous state. -/
def resourceManagerDebug (memAvail connAvail taskAvail : Nat) : String :=
  "ResourceManager(memory: Semaphore(permits: " ++ Nat.repr memAvail ++
    "), s3_connections: Semaphore(permits: " ++ Nat.repr connAvail ++
    "), tasks: Semaphore(permits: " ++ Nat.repr taskAvail ++ "))"

/-- Modelled from the spec: the Debug rendering of the request's identifying
fields (`models.rs` is not among the provided sources). -/
def requestDataDebug (rd : RequestData) : String :=
  "RequestData(source: " ++ rd.source ++ ", bucket: " ++ rd.bucket ++
    ", object: " ++ rd.object ++ ", offset: " ++
    (match rd.offset with
     | none => "None"
     | some n => "Some(" ++ Nat.repr n ++ ")") ++
    ", size: " ++
    (match rd.size with
     | none => "None"
     | some n => "Some(" ++ Nat.repr n ++ ")") ++ ")"

/-- The tail of `app::operation` after validation (lines 268–277): the
conditional zero-copy assertion, the `Bytes → Vec<u8>` ownership transfer,
the unconditional zero-copy assertion, and the kernel invocation.  A failed
assertion is a panic. -/
def operation_rest (env : Env) (rd : RequestData) (ptr : Nat) (data : Bytes)
    (tr : List Event) : List Event × OpOutcome :=
  if rd.compression.isNone ∧ rd.filters.isNone ∧ ptr ≠ data.ptr then
    (tr, .panicked)
  else if data.ptr ≠ (bytesIntoVec data).ptr then
    (tr, .panicked)
  else
    (tr ++ [.runKernel (bytesIntoVec data)],
      outcomeOfExcept (env.exec rd (bytesIntoVec data)))

/-- `app::operation` (lines 258–278): record the fetched buffer's pointer,
run the filter pipeline, validate the raw size exactly when compression was
present or `size` was unspecified, then assert zero-copy and run the
kernel. -/
def operation (env : Env) (rd : RequestData) (data : Bytes) :
    List Event × OpOutcome :=
  match filter_pipeline env.decomp rd data with
  | .error e => ([], .err e)
  | .ok data1 =>
    if rd.compression.isSome || rd.size.isNone then
      match validate_raw_size data1.data.length rd.dtype rd.shape with
      | .error e => ([.validateRawSize data1.data.length], .err e)
      | .ok _ =>
        operation_rest env rd data.ptr data1
          [.validateRawSize data1.data.length]
    else
      operation_rest env rd data.ptr data1 []

/-- Command line arguments read by `app.rs` (`cli.rs` is not among the
provided sources; the fields are those `AppState::new` and `init` use). -/
structure CommandLineArgs where
  use_rayon : Bool
  thread_limit : Option Nat
  s3_connection_limit : Option Nat
  memory_limit : Option Nat
  deriving DecidableEq, Repr

/-- `app::operation_handler` (lines 215–248): acquire a memory permit for
`size.unwrap_or(0)`, resolve the S3 client, download the object (connection
permit inside), then either spawn the reduction on the Rayon pool
(`use_rayon`) or run it under a task permit.  Permits are released when their
bindings drop. -/
def operation_handler (env : Env) (args : CommandLineArgs)
    (rd : RequestData) : List Event × OpOutcome :=
  if env.memGrant then
    match (download_object env).2 with
    | .error e =>
      (.acquireMemory (rd.size.getD 0) :: .getClient ::
        ((download_object env).1 ++ [.releaseMemory]), .err e)
    | .ok data =>
      if args.use_rayon then
        (.acquireMemory (rd.size.getD 0) :: .getClient ::
          ((download_object env).1 ++ .rayonSpawn ::
            ((operation env rd data).1 ++ [.releaseMemory])),
          (operation env rd data).2)
      else if env.taskGrant then
        (.acquireMemory (rd.size.getD 0) :: .getClient ::
          ((download_object env).1 ++ .acquireTask ::
            ((operation env rd data).1 ++ [.releaseTask, .releaseMemory])),
          (operation env rd data).2)
      else
        (.acquireMemory (rd.size.getD 0) :: .getClient ::
          ((download_object env).1 ++ [.releaseMemory]),
          .err .taskLimitExceeded)
  else
    ([], .err .memoryLimitExceeded)

/-- `app::init` (lines 100–107): when `use_rayon` is set, build the global
Rayon pool with `num_cpus − 1` threads; otherwise build no pool.  Returns the
thread count of the pool built, if any. -/
def init (args : CommandLineArgs) (ncpus : Nat) : Option Nat :=
  if args.use_rayon then some (ncpus - 1) else none

/-- The `task_limit` computed by `AppState::new` (line 65):
`args.thread_limit.or_else(|| Some(num_cpus::get() - 1))`; it is the capacity
handed to the resource manager's task semaphore. -/
def AppState_new_task_limit (args : CommandLineArgs) (ncpus : Nat) :
    Option Nat :=
  args.thread_limit.orElse (fun _ => some (ncpus - 1))

/-- Routing outcome for a single path segment under `/v1`. -/
inductive Route where
  | count
  | max
  | min
  | sum
  | select
  | unknown (operation : String)
  deriving DecidableEq, Repr

/-- The `/v1` router (lines 115–125): the five fixed operation routes, with
the `/:operation` capture as fallback for every other segment (axum gives
literal routes precedence over captures). -/
def v1_route (op : String) : Route :=
  if op = "count" then .count
  else if op = "max" then .max
  else if op = "min" then .min
  else if op = "select" then .select
  else if op = "sum" then .sum
  else .unknown op

/-- `app::unknown_operation_handler` (lines 287–289): return
`UnsupportedOperation` carrying the unknown path segment. -/
def unknown_operation_handler (op : String) : ActiveStorageError :=
  .unsupportedOperation op

/-- Modelled from the spec: the lowercase dtype name,
`self.dtype.to_string().to_lowercase()` in `into_response` (the Display
instance lives in `models.rs`, not among the provided sources; §4.8 says the
header carries the lowercase dtype name). -/
def dtypeLowercaseName : DType → String
  | .int32 => "int32"
  | .int64 => "int64"
  | .uint32 => "uint32"
  | .uint64 => "uint64"
  | .float32 => "float32"
  | .float64 => "float64"

/-- `serde_json::to_string` of a vector of array sizes: the JSON array of
integers without spaces. -/
def jsonNatList (l : List Nat) : String :=
  "[" ++ String.intercalate "," (l.map Nat.repr) ++ "]"

/-- The name of a byte order as emitted on the wire. -/
def byteOrderName : ByteOrder → String
  | .big => "big"
  | .little => "little"

/-- `HEADER_BYTE_ORDER_VALUE` (lines 45–48): the host's native byte order
rendered as `big` or `little`.  `NATIVE_BYTE_ORDER` is a build-time constant
of `types.rs`, modelled here as a parameter. -/
def HEADER_BYTE_ORDER_VALUE (native : ByteOrder) : String :=
  byteOrderName native

/-- `IntoResponse for models::Response` (lines 79–97): the five response
headers in order, paired with the raw body bytes. -/
def into_response (native : ByteOrder) (r : Response) :
    List (String × String) × List Nat :=
  ([("content-type", "application/octet-stream"),
    ("x-activestorage-dtype", dtypeLowercaseName r.dtype),
    ("x-activestorage-shape", jsonNatList r.shape),
    ("x-activestorage-count", Nat.repr r.count),
    ("x-activestorage-byte-order", HEADER_BYTE_ORDER_VALUE native)],
   r.body)

/-- No event of the trace satisfies `p`. -/
def NoneSat (p : Event → Prop) (tr : List Event) : Prop :=
  ∀ e ∈ tr, ¬ p e

/-- Every `p`-event of the trace occurs before every `q`-event: the trace
splits into a prefix free of `q`-events and a suffix free of `p`-events. -/
def Precedes (p q : Event → Prop) (tr : List Event) : Prop :=
  ∃ l1 l2, tr = l1 ++ l2 ∧ NoneSat p l2 ∧ NoneSat q l1

/-- The event is a kernel invocation, whatever the buffer. -/
def isRunKernel : Event → Prop := fun e => ∃ b, e = .runKernel b

theorem noneSat_nil (p : Event → Prop) : NoneSat p [] := by
  intro e he
  cases he

theorem noneSat_cons {p : Event → Prop} {a : Event} {tr : List Event}
    (h : ¬ p a) (ht : NoneSat p tr) : NoneSat p (a :: tr) := by
  intro e he
  rcases List.mem_cons.mp he with rfl | he2
  · exact h
  · exact ht e he2

theorem noneSat_append {p : Event → Prop} {t1 t2 : List Event}
    (h1 : NoneSat p t1) (h2 : NoneSat p t2) : NoneSat p (t1 ++ t2) := by
  intro e he
  rcases List.mem_append.mp he with he1 | he2
  · exact h1 e he1
  · exact h2 e he2

theorem noneSat_not_mem {p : Event → Prop} {tr : List Event} {e : Event}
    (h : NoneSat p tr) (hp : p e) : e ∉ tr :=
  fun hm => h e hm hp

theorem precedes_of_noneSat_left {p q : Event → Prop} {tr : List Event}
    (h : NoneSat p tr) : Precedes p q tr :=
  ⟨[], tr, rfl, h, noneSat_nil q⟩

theorem precedes_of_noneSat_right {p q : Event → Prop} {tr : List Event}
    (h : NoneSat q tr) : Precedes p q tr :=
  ⟨tr, [], (List.append_nil tr).symm, noneSat_nil p, h⟩

theorem precedes_split {p q : Event → Prop} {t1 t2 : List Event}
    (h1 : NoneSat q t1) (h2 : NoneSat p t2) : Precedes p q (t1 ++ t2) :=
  ⟨t1, t2, rfl, h2, h1⟩

theorem precedes_cons {p q : Event → Prop} {a : Event} {tr : List Event}
    (h : ¬ q a) (ht : Precedes p q tr) : Precedes p q (a :: tr) := by
  obtain ⟨l1, l2, rfl, hp, hq⟩ := ht
  exact ⟨a :: l1, l2, rfl, hp, noneSat_cons h hq⟩

theorem precedes_append_left {p q : Event → Prop} {t1 t2 : List Event}
    (h : NoneSat p t2) (ht : Precedes p q t1) : Precedes p q (t1 ++ t2) := by
  obtain ⟨l1, l2, rfl, hp, hq⟩ := ht
  exact ⟨l1, l2 ++ t2, by simp, noneSat_append hp h, hq⟩

theorem precedes_append_right {p q : Event → Prop} {t1 t2 : List Event}
    (h : NoneSat q t1) (ht : Precedes p q t2) : Precedes p q (t1 ++ t2) := by
  obtain ⟨l1, l2, rfl, hp, hq⟩ := ht
  exact ⟨t1 ++ l1, l2, by simp, hp, noneSat_append h hq⟩

/-- The trace of a (cached) `download_object` call takes one of three
shapes: empty (cache hit, or connection admission denied), the full
acquire/download/release sequence, or the error variant without the
download-complete event. -/
theorem download_object_trace_cases (env : Env) :
    (download_object env).1 = [] ∨
    (download_object env).1 =
      [.acquireConn, .startDownload, .endDownload, .releaseConn] ∨
    (download_object env).1 = [.acquireConn, .startDownload, .releaseConn] := by
  unfold download_object download_object_inner
  cases env.cache with
  | some b => simp
  | none =>
    cases hc : env.connGrant with
    | false => simp
    | true =>
      cases env.fetched with
      | ok b => simp
      | error e => simp

theorem noneSat_download {p : Event → Prop} (env : Env)
    (h1 : ¬ p .acquireConn) (h2 : ¬ p .startDownload)
    (h3 : ¬ p .endDownload) (h4 : ¬ p .releaseConn) :
    NoneSat p (download_object env).1 := by
  intro e he
  rcases download_object_trace_cases env with h | h | h
  · rw [h] at he
    cases he
  · rw [h] at he
    simp only [List.mem_cons, List.not_mem_nil, or_false] at he
    rcases he with rfl | rfl | rfl | rfl
    · exact h1
    · exact h2
    · exact h3
    · exact h4
  · rw [h] at he
    simp only [List.mem_cons, List.not_mem_nil, or_false] at he
    rcases he with rfl | rfl | rfl
    · exact h1
    · exact h2
    · exact h4

/-- The trace of `operation` contains only the size-validation event and the
kernel invocation. -/
theorem operation_rest_trace (env : Env) (rd : RequestData) (ptr : Nat)
    (data : Bytes) (tr : List Event) :
    (operation_rest env rd ptr data tr).1 = tr ∨
    (operation_rest env rd ptr data tr).1 =
      tr ++ [.runKernel (bytesIntoVec data)] := by
  unfold operation_rest
  split
  · exact Or.inl rfl
  · split
    · exact Or.inl rfl
    · exact Or.inr rfl

theorem operation_rest_trace_ok (env : Env) (rd : RequestData) (ptr : Nat)
    (data : Bytes) (tr : List Event)
    (h : ¬ (rd.compression.isNone = true ∧ rd.filters.isNone = true ∧
      ptr ≠ data.ptr)) :
    operation_rest env rd ptr data tr =
      (tr ++ [.runKernel (bytesIntoVec data)],
        outcomeOfExcept (env.exec rd (bytesIntoVec data))) := by
  unfold operation_rest
  rw [if_neg h, if_neg (by simp [bytesIntoVec])]

theorem operation_trace_cases (env : Env) (rd : RequestData) (data : Bytes) :
    (operation env rd data).1 = [] ∨
    (∃ n, (operation env rd data).1 = [.validateRawSize n]) ∨
    (∃ n b, (operation env rd data).1 = [.validateRawSize n, .runKernel b]) ∨
    (∃ b, (operation env rd data).1 = [.runKernel b]) := by
  unfold operation
  cases hfp : filter_pipeline env.decomp rd data with
  | error e => simp
  | ok d1 =>
    dsimp only
    by_cases hc : (rd.compression.isSome || rd.size.isNone) = true
    · rw [if_pos hc]
      cases hv : validate_raw_size d1.data.length rd.dtype rd.shape with
      | error e => simp
      | ok u =>
        rcases operation_rest_trace env rd data.ptr d1
            [.validateRawSize d1.data.length] with h | h <;> rw [h] <;> simp
    · rw [if_neg hc]
      rcases operation_rest_trace env rd data.ptr d1 [] with h | h <;>
        rw [h] <;> simp

theorem noneSat_operation {p : Event → Prop} (env : Env) (rd : RequestData)
    (data : Bytes) (h1 : ∀ n, ¬ p (.validateRawSize n))
    (h2 : ∀ b, ¬ p (.runKernel b)) :
    NoneSat p (operation env rd data).1 := by
  intro e he
  rcases operation_trace_cases env rd data with h | ⟨n, h⟩ | ⟨n, b, h⟩ | ⟨b, h⟩
  · rw [h] at he
    cases he
  · rw [h] at he
    simp only [List.mem_cons, List.not_mem_nil, or_false] at he
    rcases he with rfl
    exact h1 n
  · rw [h] at he
    simp only [List.mem_cons, List.not_mem_nil, or_false] at he
    rcases he with rfl | rfl
    · exact h1 n
    · exact h2 b
  · rw [h] at he
    simp only [List.mem_cons, List.not_mem_nil, or_false] at he
    rcases he with rfl
    exact h2 b

/-- Case analysis on the trace of `operation_handler`: the request is either
rejected at memory admission (empty trace), fails at download, dispatches the
reduction to Rayon, runs it under a task permit, or is rejected at task
admission. -/
theorem handler_cases (env : Env) (args : CommandLineArgs) (rd : RequestData)
    (motive : List Event → Prop)
    (h0 : env.memGrant = false → motive [])
    (herr : ∀ e, env.memGrant = true → (download_object env).2 = .error e →
      motive (.acquireMemory (rd.size.getD 0) :: .getClient ::
        ((download_object env).1 ++ [.releaseMemory])))
    (hrayon : ∀ data, env.memGrant = true →
      (download_object env).2 = .ok data → args.use_rayon = true →
      motive (.acquireMemory (rd.size.getD 0) :: .getClient ::
        ((download_object env).1 ++ .rayonSpawn ::
          ((operation env rd data).1 ++ [.releaseMemory]))))
    (htask : ∀ data, env.memGrant = true →
      (download_object env).2 = .ok data → args.use_rayon = false →
      env.taskGrant = true →
      motive (.acquireMemory (rd.size.getD 0) :: .getClient ::
        ((download_object env).1 ++ .acquireTask ::
          ((operation env rd data).1 ++ [.releaseTask, .releaseMemory]))))
    (hdeny : ∀ data, env.memGrant = true →
      (download_object env).2 = .ok data → args.use_rayon = false →
      env.taskGrant = false →
      motive (.acquireMemory (rd.size.getD 0) :: .getClient ::
        ((download_object env).1 ++ [.releaseMemory]))) :
    motive (operation_handler env args rd).1 := by
  unfold operation_handler
  cases hm : env.memGrant with
  | false =>
    rw [if_neg (by simp)]
    exact h0 hm
  | true =>
    rw [if_pos rfl]
    cases hdres : (download_object env).2 with
    | error e =>
      exact herr e hm hdres
    | ok data =>
      dsimp only
      cases hr : args.use_rayon with
      | true =>
        rw [if_pos rfl]
        exact hrayon data hm hdres hr
      | false =>
        rw [if_neg (by simp)]
        cases ht : env.taskGrant with
        | true =>
          rw [if_pos rfl]
          exact htask data hm hdres hr ht
        | false =>
          rw [if_neg (by simp)]
          exact hdeny data hm hdres hr ht

/-- With neither compression nor filters, the filter pipeline returns its
input buffer unchanged (same pointer, same bytes). -/
theorem filter_pipeline_id (decomp : Compression → List Nat → Option (List Nat))
    (rd : RequestData) (data : Bytes) (h1 : rd.compression = none)
    (h2 : rd.filters = none) :
    filter_pipeline decomp rd data = .ok data := by
  unfold filter_pipeline
  rw [h1, h2]

theorem operation_rest_ne_panicked (env : Env) (rd : RequestData) (ptr : Nat)
    (data : Bytes) (tr : List Event)
    (h : rd.compression.isNone = true → rd.filters.isNone = true →
      ptr = data.ptr) :
    (operation_rest env rd ptr data tr).2 ≠ OpOutcome.panicked := by
  unfold operation_rest
  split
  · next hguard => exact absurd (h hguard.1 hguard.2.1) hguard.2.2
  · split
    · next hguard => exact absurd rfl hguard
    · cases env.exec rd (bytesIntoVec data) <;> simp [outcomeOfExcept]

/-- `app::operation` never panics: the conditional zero-copy assertion only
runs when the pipeline was the identity, and the `Bytes → Vec` transfer
preserves the pointer. -/
theorem operation_ne_panicked (env : Env) (rd : RequestData) (data : Bytes) :
    (operation env rd data).2 ≠ OpOutcome.panicked := by
  unfold operation
  cases hfp : filter_pipeline env.decomp rd data with
  | error e => simp
  | ok d1 =>
    dsimp only
    have hptr : rd.compression.isNone = true → rd.filters.isNone = true →
        data.ptr = d1.ptr := by
      intro hcn hfn
      rw [Option.isNone_iff_eq_none] at hcn hfn
      rw [filter_pipeline_id env.decomp rd data hcn hfn] at hfp
      injection hfp with h
      rw [h]
    by_cases hc : (rd.compression.isSome || rd.size.isNone) = true
    · rw [if_pos hc]
      cases hv : validate_raw_size d1.data.length rd.dtype rd.shape with
      | error e => simp
      | ok u => exact operation_rest_ne_panicked env rd data.ptr d1 _ hptr
    · rw [if_neg hc]
      exact operation_rest_ne_panicked env rd data.ptr d1 _ hptr

/-- Under the no-transform precondition, the only buffer ever handed to the
kernel is the fetched buffer itself. -/
theorem operation_kernel_buffer (env : Env) (rd : RequestData) (data : Bytes)
    (h1 : rd.compression = none) (h2 : rd.filters = none) :
    ∀ b, Event.runKernel b ∈ (operation env rd data).1 → b = data := by
  intro b hb
  unfold operation at hb
  rw [filter_pipeline_id env.decomp rd data h1 h2] at hb
  dsimp only at hb
  by_cases hc : (rd.compression.isSome || rd.size.isNone) = true
  · rw [if_pos hc] at hb
    cases hv : validate_raw_size data.data.length rd.dtype rd.shape with
    | error e =>
      rw [hv] at hb
      simp at hb
    | ok u =>
      rw [hv] at hb
      rcases operation_rest_trace env rd data.ptr data
          [.validateRawSize data.data.length] with h | h <;> rw [h] at hb
      · simp at hb
      · simp [bytesIntoVec] at hb
        exact hb
  · rw [if_neg hc] at hb
    rcases operation_rest_trace env rd data.ptr data [] with h | h <;>
      rw [h] at hb
    · cases hb
    · simp [bytesIntoVec] at hb
      exact hb

/-- Sample environment used to witness the theorems at concrete inputs. -/
def sampleEnv : Env where
  memGrant := true
  connGrant := true
  taskGrant := true
  cache := none
  fetched := .ok ⟨100, [1, 0, 0, 0]⟩
  decomp := fun _ _ => none
  exec := fun _ b => .ok ⟨b.data, .int32, [], 1⟩

/-- Sample request used to witness the theorems at concrete inputs. -/
def sampleRequest : RequestData where
  source := "http://s3.example.org"
  bucket := "sample-data"
  object := "data-int32.dat"
  dtype := .int32
  size := some 4
  shape := [1]

/-- C1: with `compression` and `filters` both absent, the filter pipeline
returns the fetched buffer itself, `operation`'s zero-copy assertions never
fire, and any buffer reaching the kernel is exactly the fetched buffer
(same backing pointer, same bytes). -/
theorem zero_copy_no_transform (env : Env) (rd : RequestData) (data : Bytes)
    (h1 : rd.compression = none) (h2 : rd.filters = none) :
    filter_pipeline env.decomp rd data = .ok data ∧
    (operation env rd data).2 ≠ OpOutcome.panicked ∧
    ∀ b, Event.runKernel b ∈ (operation env rd data).1 →
      b.ptr = data.ptr ∧ b = data := by
  refine ⟨filter_pipeline_id env.decomp rd data h1 h2,
    operation_ne_panicked env rd data, fun b hb => ?_⟩
  have h := operation_kernel_buffer env rd data h1 h2 b hb
  exact ⟨by rw [h], h⟩

theorem zero_copy_no_transform_witness :
    filter_pipeline sampleEnv.decomp sampleRequest ⟨7, [1, 0, 0, 0]⟩ =
      .ok ⟨7, [1, 0, 0, 0]⟩ ∧
    (operation sampleEnv sampleRequest ⟨7, [1, 0, 0, 0]⟩).2 ≠
      OpOutcome.panicked ∧
    ∀ b, Event.runKernel b ∈
        (operation sampleEnv sampleRequest ⟨7, [1, 0, 0, 0]⟩).1 →
      b.ptr = (Bytes.mk 7 [1, 0, 0, 0]).ptr ∧ b = ⟨7, [1, 0, 0, 0]⟩ :=
  zero_copy_no_transform sampleEnv sampleRequest ⟨7, [1, 0, 0, 0]⟩ rfl rfl

/-- C6: the `Bytes → Vec<u8>` ownership transfer preserves the backing
pointer (and the whole buffer), for every request — with or without
compression or filters — and the unconditional pointer-equality assertion
after the conversion never fails (`operation` never panics). -/
theorem into_vec_zero_copy (env : Env) (rd : RequestData) (data : Bytes) :
    (∀ b : Bytes, (bytesIntoVec b).ptr = b.ptr ∧ bytesIntoVec b = b) ∧
    (operation env rd data).2 ≠ OpOutcome.panicked :=
  ⟨fun _ => ⟨rfl, rfl⟩, operation_ne_panicked env rd data⟩

theorem into_vec_zero_copy_witness :
    (∀ b : Bytes, (bytesIntoVec b).ptr = b.ptr ∧ bytesIntoVec b = b) ∧
    (operation sampleEnv
      { sampleRequest with compression := some .gzip }
      ⟨7, [1, 0, 0, 0]⟩).2 ≠ OpOutcome.panicked :=
  into_vec_zero_copy sampleEnv
    { sampleRequest with compression := some .gzip } ⟨7, [1, 0, 0, 0]⟩

/-- C5: after a successful filter pipeline, the raw size is validated
exactly when compression was present or `size` was unspecified; a mismatch
between `element_size × ∏ shape` and the post-pipeline length then yields
`ShapeMismatch`; with `size` given and no compression, no size validation
happens at all. -/
theorem raw_size_validation_iff (env : Env) (rd : RequestData)
    (data d1 : Bytes)
    (hfp : filter_pipeline env.decomp rd data = .ok d1) :
    ((rd.compression.isSome = true ∨ rd.size = none) ↔
      Event.validateRawSize d1.data.length ∈ (operation env rd data).1) ∧
    ((rd.compression.isSome = true ∨ rd.size = none) →
      element_size rd.dtype * rd.shape.prod ≠ d1.data.length →
      (operation env rd data).2 = .err .shapeMismatch) ∧
    (rd.compression = none → rd.size.isSome = true →
      ∀ n, Event.validateRawSize n ∉ (operation env rd data).1) := by
  unfold operation
  rw [hfp]
  dsimp only
  by_cases hc : (rd.compression.isSome || rd.size.isNone) = true
  · have hcond : rd.compression.isSome = true ∨ rd.size = none := by
      simpa [Option.isNone_iff_eq_none] using hc
    rw [if_pos hc]
    have hnosome : rd.compression = none → rd.size.isSome = true → False := by
      intro hcn hss
      rcases hcond with h | h
      · rw [hcn] at h
        cases h
      · rw [h] at hss
        cases hss
    cases hv : validate_raw_size d1.data.length rd.dtype rd.shape with
    | error e =>
      have he : e = .shapeMismatch := by
        unfold validate_raw_size at hv
        split at hv
        · cases hv
        · injection hv with h
          exact h.symm
      refine ⟨⟨fun _ => by simp, fun _ => hcond⟩, fun _ _ => by rw [he],
        fun hcn hss => absurd (hnosome hcn hss) not_false⟩
    | ok u =>
      have hlen : element_size rd.dtype * rd.shape.prod = d1.data.length := by
        unfold validate_raw_size at hv
        split at hv
        · assumption
        · cases hv
      refine ⟨⟨fun _ => ?_, fun _ => hcond⟩, fun _ hne => absurd hlen hne,
        fun hcn hss => absurd (hnosome hcn hss) not_false⟩
      rcases operation_rest_trace env rd data.ptr d1
          [.validateRawSize d1.data.length] with h | h <;> rw [h] <;> simp
  · have hcond : ¬ (rd.compression.isSome = true ∨ rd.size = none) := by
      simpa [Option.isNone_iff_eq_none] using hc
    rw [if_neg hc]
    have hnov : ∀ n, Event.validateRawSize n ∉
        (operation_rest env rd data.ptr d1 []).1 := by
      intro n hn
      rcases operation_rest_trace env rd data.ptr d1 [] with h | h <;>
        rw [h] at hn
      · cases hn
      · simp only [List.nil_append, List.mem_singleton] at hn
        cases hn
    exact ⟨⟨fun h => absurd h hcond, fun h => absurd h (hnov _)⟩,
      fun h => absurd h hcond, fun _ _ => hnov⟩

theorem raw_size_validation_iff_witness :
    ((sampleRequest.compression.isSome = true ∨ sampleRequest.size = none) ↔
      Event.validateRawSize (Bytes.mk 7 [1, 0, 0, 0]).data.length ∈
        (operation sampleEnv sampleRequest ⟨7, [1, 0, 0, 0]⟩).1) ∧
    ((sampleRequest.compression.isSome = true ∨ sampleRequest.size = none) →
      element_size sampleRequest.dtype * sampleRequest.shape.prod ≠
        (Bytes.mk 7 [1, 0, 0, 0]).data.length →
      (operation sampleEnv sampleRequest ⟨7, [1, 0, 0, 0]⟩).2 =
        .err .shapeMismatch) ∧
    (sampleRequest.compression = none → sampleRequest.size.isSome = true →
      ∀ n, Event.validateRawSize n ∉
        (operation sampleEnv sampleRequest ⟨7, [1, 0, 0, 0]⟩).1) :=
  raw_size_validation_iff sampleEnv sampleRequest ⟨7, [1, 0, 0, 0]⟩
    ⟨7, [1, 0, 0, 0]⟩ rfl

theorem noneSat_singleton {p : Event → Prop} {a : Event} (h : ¬ p a) :
    NoneSat p [a] :=
  noneSat_cons h (noneSat_nil p)

/-- Shared trace facts for the memory-before-fetch claim, for every
successful-admission branch of the handler: the acquired amount is
`size.unwrap_or(0)`, it heads the trace, and the download events follow. -/
theorem c3_branch (env : Env) (rd : RequestData) (X : List Event)
    (hX : NoneSat (· = Event.acquireMemory (rd.size.getD 0)) X) :
    Precedes (· = Event.acquireMemory (rd.size.getD 0))
      (· = Event.startDownload)
      (Event.acquireMemory (rd.size.getD 0) :: Event.getClient ::
        ((download_object env).1 ++ X)) ∧
    (Event.startDownload ∈ (Event.acquireMemory (rd.size.getD 0) ::
        Event.getClient :: ((download_object env).1 ++ X)) →
      Event.acquireMemory (rd.size.getD 0) ∈
        (Event.acquireMemory (rd.size.getD 0) :: Event.getClient ::
          ((download_object env).1 ++ X))) ∧
    (∀ n, rd.size = some n →
      Event.startDownload ∈ (Event.acquireMemory (rd.size.getD 0) ::
        Event.getClient :: ((download_object env).1 ++ X)) →
      Event.acquireMemory n ∈ (Event.acquireMemory (rd.size.getD 0) ::
        Event.getClient :: ((download_object env).1 ++ X))) ∧
    (rd.size = none →
      Event.startDownload ∈ (Event.acquireMemory (rd.size.getD 0) ::
        Event.getClient :: ((download_object env).1 ++ X)) →
      Event.acquireMemory 0 ∈ (Event.acquireMemory (rd.size.getD 0) ::
        Event.getClient :: ((download_object env).1 ++ X))) := by
  refine ⟨⟨[Event.acquireMemory (rd.size.getD 0)],
    Event.getClient :: ((download_object env).1 ++ X), rfl,
    noneSat_cons (by simp)
      (noneSat_append
        (noneSat_download env (by simp) (by simp) (by simp) (by simp)) hX),
    noneSat_singleton (by simp)⟩,
    fun _ => by simp, fun n hn _ => by simp [hn], fun hn _ => by simp [hn]⟩

/-- C3: the orchestrator acquires a memory permit for exactly
`size.unwrap_or(0)` bytes — `size` when specified, `0` when not — and this
acquisition strictly precedes the S3 fetch; a fetch never starts without
the memory permit having been acquired. -/
theorem memory_before_fetch (env : Env) (args : CommandLineArgs)
    (rd : RequestData) :
    Precedes (· = Event.acquireMemory (rd.size.getD 0))
      (· = Event.startDownload) (operation_handler env args rd).1 ∧
    (Event.startDownload ∈ (operation_handler env args rd).1 →
      Event.acquireMemory (rd.size.getD 0) ∈
        (operation_handler env args rd).1) ∧
    (∀ n, rd.size = some n →
      Event.startDownload ∈ (operation_handler env args rd).1 →
      Event.acquireMemory n ∈ (operation_handler env args rd).1) ∧
    (rd.size = none →
      Event.startDownload ∈ (operation_handler env args rd).1 →
      Event.acquireMemory 0 ∈ (operation_handler env args rd).1) := by
  refine handler_cases env args rd (fun tr =>
    Precedes (· = Event.acquireMemory (rd.size.getD 0))
      (· = Event.startDownload) tr ∧
    (Event.startDownload ∈ tr →
      Event.acquireMemory (rd.size.getD 0) ∈ tr) ∧
    (∀ n, rd.size = some n → Event.startDownload ∈ tr →
      Event.acquireMemory n ∈ tr) ∧
    (rd.size = none → Event.startDownload ∈ tr →
      Event.acquireMemory 0 ∈ tr)) ?_ ?_ ?_ ?_ ?_
  · intro _
    exact ⟨precedes_of_noneSat_left (noneSat_nil _),
      fun h => absurd h (List.not_mem_nil _),
      fun n _ h => absurd h (List.not_mem_nil _),
      fun _ h => absurd h (List.not_mem_nil _)⟩
  · intro e _ _
    exact c3_branch env rd [.releaseMemory] (noneSat_singleton (by simp))
  · intro data _ _ _
    exact c3_branch env rd
      (.rayonSpawn :: ((operation env rd data).1 ++ [.releaseMemory]))
      (noneSat_cons (by simp)
        (noneSat_append (noneSat_operation env rd data (by simp) (by simp))
          (noneSat_singleton (by simp))))
  · intro data _ _ _ _
    exact c3_branch env rd
      (.acquireTask ::
        ((operation env rd data).1 ++ [.releaseTask, .releaseMemory]))
      (noneSat_cons (by simp)
        (noneSat_append (noneSat_operation env rd data (by simp) (by simp))
          (noneSat_cons (by simp) (noneSat_singleton (by simp)))))
  · intro data _ _ _ _
    exact c3_branch env rd [.releaseMemory] (noneSat_singleton (by simp))

theorem memory_before_fetch_witness :
    Precedes (· = Event.acquireMemory (sampleRequest.size.getD 0))
      (· = Event.startDownload)
      (operation_handler sampleEnv ⟨false, none, none, none⟩
        sampleRequest).1 ∧
    (Event.startDownload ∈
        (operation_handler sampleEnv ⟨false, none, none, none⟩
          sampleRequest).1 →
      Event.acquireMemory (sampleRequest.size.getD 0) ∈
        (operation_handler sampleEnv ⟨false, none, none, none⟩
          sampleRequest).1) ∧
    (∀ n, sampleRequest.size = some n →
      Event.startDownload ∈
        (operation_handler sampleEnv ⟨false, none, none, none⟩
          sampleRequest).1 →
      Event.acquireMemory n ∈
        (operation_handler sampleEnv ⟨false, none, none, none⟩
          sampleRequest).1) ∧
    (sampleRequest.size = none →
      Event.startDownload ∈
        (operation_handler sampleEnv ⟨false, none, none, none⟩
          sampleRequest).1 →
      Event.acquireMemory 0 ∈
        (operation_handler sampleEnv ⟨false, none, none, none⟩
          sampleRequest).1) :=
  memory_before_fetch sampleEnv ⟨false, none, none, none⟩ sampleRequest

/-- C4: with `use_rayon` configured the reduction is dispatched to the Rayon
pool (every kernel invocation is preceded by the Rayon spawn) and no task
permit is ever acquired; without it, the Rayon pool is never used and the
kernel runs only after a task permit has been acquired. -/
theorem kernel_dispatch_mode (env : Env) (args : CommandLineArgs)
    (rd : RequestData) :
    (args.use_rayon = true →
      Event.acquireTask ∉ (operation_handler env args rd).1 ∧
      (∀ b, Event.runKernel b ∈ (operation_handler env args rd).1 →
        Event.rayonSpawn ∈ (operation_handler env args rd).1) ∧
      Precedes (· = Event.rayonSpawn) isRunKernel
        (operation_handler env args rd).1) ∧
    (args.use_rayon = false →
      Event.rayonSpawn ∉ (operation_handler env args rd).1 ∧
      (∀ b, Event.runKernel b ∈ (operation_handler env args rd).1 →
        Event.acquireTask ∈ (operation_handler env args rd).1) ∧
      Precedes (· = Event.acquireTask) isRunKernel
        (operation_handler env args rd).1) := by
  refine handler_cases env args rd (fun tr =>
    (args.use_rayon = true →
      Event.acquireTask ∉ tr ∧
      (∀ b, Event.runKernel b ∈ tr → Event.rayonSpawn ∈ tr) ∧
      Precedes (· = Event.rayonSpawn) isRunKernel tr) ∧
    (args.use_rayon = false →
      Event.rayonSpawn ∉ tr ∧
      (∀ b, Event.runKernel b ∈ tr → Event.acquireTask ∈ tr) ∧
      Precedes (· = Event.acquireTask) isRunKernel tr)) ?_ ?_ ?_ ?_ ?_
  · intro _
    exact ⟨fun _ => ⟨List.not_mem_nil _,
        fun b h => absurd h (List.not_mem_nil _),
        precedes_of_noneSat_left (noneSat_nil _)⟩,
      fun _ => ⟨List.not_mem_nil _,
        fun b h => absurd h (List.not_mem_nil _),
        precedes_of_noneSat_left (noneSat_nil _)⟩⟩
  · intro e _ _
    have hkernel : NoneSat isRunKernel
        (Event.acquireMemory (rd.size.getD 0) :: Event.getClient ::
          ((download_object env).1 ++ [Event.releaseMemory])) :=
      noneSat_cons (by simp [isRunKernel])
        (noneSat_cons (by simp [isRunKernel])
          (noneSat_append
            (noneSat_download env (by simp [isRunKernel])
              (by simp [isRunKernel]) (by simp [isRunKernel])
              (by simp [isRunKernel]))
            (noneSat_singleton (by simp [isRunKernel]))))
    refine ⟨fun _ => ⟨?_, fun b h => absurd h (noneSat_not_mem hkernel ⟨b, rfl⟩),
        precedes_of_noneSat_right hkernel⟩,
      fun _ => ⟨?_, fun b h => absurd h (noneSat_not_mem hkernel ⟨b, rfl⟩),
        precedes_of_noneSat_right hkernel⟩⟩
    · exact noneSat_not_mem
        (noneSat_cons (by simp) (noneSat_cons (by simp)
          (noneSat_append
            (noneSat_download env (by simp) (by simp) (by simp) (by simp))
            (noneSat_singleton (by simp))))) rfl
    · exact noneSat_not_mem
        (noneSat_cons (by simp) (noneSat_cons (by simp)
          (noneSat_append
            (noneSat_download env (by simp) (by simp) (by simp) (by simp))
            (noneSat_singleton (by simp))))) rfl
  · intro data _ _ hr
    refine ⟨fun _ => ⟨?_, fun b _ => by simp, ?_⟩,
      fun h => absurd hr (by rw [h]; simp)⟩
    · exact noneSat_not_mem
        (noneSat_cons (by simp) (noneSat_cons (by simp)
          (noneSat_append
            (noneSat_download env (by simp) (by simp) (by simp) (by simp))
            (noneSat_cons (by simp)
              (noneSat_append
                (noneSat_operation env rd data (by simp) (by simp))
                (noneSat_singleton (by simp))))))) rfl
    · refine ⟨Event.acquireMemory (rd.size.getD 0) :: Event.getClient ::
          ((download_object env).1 ++ [Event.rayonSpawn]),
        (operation env rd data).1 ++ [Event.releaseMemory], by simp, ?_, ?_⟩
      · exact noneSat_append
          (noneSat_operation env rd data (by simp) (by simp))
          (noneSat_singleton (by simp))
      · exact noneSat_cons (by simp [isRunKernel])
          (noneSat_cons (by simp [isRunKernel])
            (noneSat_append
              (noneSat_download env (by simp [isRunKernel])
                (by simp [isRunKernel]) (by simp [isRunKernel])
                (by simp [isRunKernel]))
              (noneSat_singleton (by simp [isRunKernel]))))
  · intro data _ _ hr _
    refine ⟨fun h => absurd h (by rw [hr]; simp),
      fun _ => ⟨?_, fun b _ => by simp, ?_⟩⟩
    · exact noneSat_not_mem
        (noneSat_cons (by simp) (noneSat_cons (by simp)
          (noneSat_append
            (noneSat_download env (by simp) (by simp) (by simp) (by simp))
            (noneSat_cons (by simp)
              (noneSat_append
                (noneSat_operation env rd data (by simp) (by simp))
                (noneSat_cons (by simp)
                  (noneSat_singleton (by simp)))))))) rfl
    · refine ⟨Event.acquireMemory (rd.size.getD 0) :: Event.getClient ::
          ((download_object env).1 ++ [Event.acquireTask]),
        (operation env rd data).1 ++
          [Event.releaseTask, Event.releaseMemory], by simp, ?_, ?_⟩
      · exact noneSat_append
          (noneSat_operation env rd data (by simp) (by simp))
          (noneSat_cons (by simp) (noneSat_singleton (by simp)))
      · exact noneSat_cons (by simp [isRunKernel])
          (noneSat_cons (by simp [isRunKernel])
            (noneSat_append
              (noneSat_download env (by simp [isRunKernel])
                (by simp [isRunKernel]) (by simp [isRunKernel])
                (by simp [isRunKernel]))
              (noneSat_singleton (by simp [isRunKernel]))))
  · intro data _ _ hr _
    have hkernel : NoneSat isRunKernel
        (Event.acquireMemory (rd.size.getD 0) :: Event.getClient ::
          ((download_object env).1 ++ [Event.releaseMemory])) :=
      noneSat_cons (by simp [isRunKernel])
        (noneSat_cons (by simp [isRunKernel])
          (noneSat_append
            (noneSat_download env (by simp [isRunKernel])
              (by simp [isRunKernel]) (by simp [isRunKernel])
              (by simp [isRunKernel]))
            (noneSat_singleton (by simp [isRunKernel]))))
    refine ⟨fun h => absurd h (by rw [hr]; simp),
      fun _ => ⟨?_, fun b h => absurd h (noneSat_not_mem hkernel ⟨b, rfl⟩),
        precedes_of_noneSat_right hkernel⟩⟩
    exact noneSat_not_mem
      (noneSat_cons (by simp) (noneSat_cons (by simp)
        (noneSat_append
          (noneSat_download env (by simp) (by simp) (by simp) (by simp))
          (noneSat_singleton (by simp))))) rfl

theorem kernel_dispatch_mode_witness :
    ((true : Bool) = true →
      Event.acquireTask ∉
        (operation_handler sampleEnv ⟨true, none, none, none⟩
          sampleRequest).1 ∧
      (∀ b, Event.runKernel b ∈
          (operation_handler sampleEnv ⟨true, none, none, none⟩
            sampleRequest).1 →
        Event.rayonSpawn ∈
          (operation_handler sampleEnv ⟨true, none, none, none⟩
            sampleRequest).1) ∧
      Precedes (· = Event.rayonSpawn) isRunKernel
        (operation_handler sampleEnv ⟨true, none, none, none⟩
          sampleRequest).1) ∧
    ((true : Bool) = false →
      Event.rayonSpawn ∉
        (operation_handler sampleEnv ⟨true, none, none, none⟩
          sampleRequest).1 ∧
      (∀ b, Event.runKernel b ∈
          (operation_handler sampleEnv ⟨true, none, none, none⟩
            sampleRequest).1 →
        Event.acquireTask ∈
          (operation_handler sampleEnv ⟨true, none, none, none⟩
            sampleRequest).1) ∧
      Precedes (· = Event.acquireTask) isRunKernel
        (operation_handler sampleEnv ⟨true, none, none, none⟩
          sampleRequest).1) :=
  kernel_dispatch_mode sampleEnv ⟨true, none, none, none⟩ sampleRequest

theorem download_precedes_acquire_start (env : Env) :
    Precedes (· = Event.acquireConn) (· = Event.startDownload)
      (download_object env).1 := by
  rcases download_object_trace_cases env with h | h | h <;> rw [h]
  · exact precedes_of_noneSat_left (noneSat_nil _)
  · exact ⟨[Event.acquireConn],
      [Event.startDownload, Event.endDownload, Event.releaseConn], rfl,
      noneSat_cons (by simp)
        (noneSat_cons (by simp) (noneSat_singleton (by simp))),
      noneSat_singleton (by simp)⟩
  · exact ⟨[Event.acquireConn], [Event.startDownload, Event.releaseConn], rfl,
      noneSat_cons (by simp) (noneSat_singleton (by simp)),
      noneSat_singleton (by simp)⟩

theorem download_precedes_end_release (env : Env) :
    Precedes (· = Event.endDownload) (· = Event.releaseConn)
      (download_object env).1 := by
  rcases download_object_trace_cases env with h | h | h <;> rw [h]
  · exact precedes_of_noneSat_left (noneSat_nil _)
  · exact ⟨[Event.acquireConn, Event.startDownload, Event.endDownload],
      [Event.releaseConn], rfl, noneSat_singleton (by simp),
      noneSat_cons (by simp)
        (noneSat_cons (by simp) (noneSat_singleton (by simp)))⟩
  · exact precedes_of_noneSat_left
      (noneSat_cons (by simp)
        (noneSat_cons (by simp) (noneSat_singleton (by simp))))

/-- C7: whenever a network download actually happens, the connection permit
is acquired first and released as the very last action of `download_object`
(so it is held for the whole duration of the I/O), and, across the whole
handler, the permit release precedes any kernel invocation. -/
theorem conn_permit_lifecycle (env : Env) (args : CommandLineArgs)
    (rd : RequestData) :
    (Event.startDownload ∈ (download_object env).1 →
      (download_object env).1 =
        [.acquireConn, .startDownload, .endDownload, .releaseConn] ∨
      (download_object env).1 =
        [.acquireConn, .startDownload, .releaseConn]) ∧
    Precedes (· = Event.acquireConn) (· = Event.startDownload)
      (operation_handler env args rd).1 ∧
    Precedes (· = Event.endDownload) (· = Event.releaseConn)
      (operation_handler env args rd).1 ∧
    Precedes (· = Event.releaseConn) isRunKernel
      (operation_handler env args rd).1 := by
  refine ⟨?_, ?_⟩
  · intro hsd
    rcases download_object_trace_cases env with h | h | h
    · rw [h] at hsd
      cases hsd
    · exact Or.inl h
    · exact Or.inr h
  · refine handler_cases env args rd (fun tr =>
      Precedes (· = Event.acquireConn) (· = Event.startDownload) tr ∧
      Precedes (· = Event.endDownload) (· = Event.releaseConn) tr ∧
      Precedes (· = Event.releaseConn) isRunKernel tr) ?_ ?_ ?_ ?_ ?_
    · intro _
      exact ⟨precedes_of_noneSat_left (noneSat_nil _),
        precedes_of_noneSat_left (noneSat_nil _),
        precedes_of_noneSat_left (noneSat_nil _)⟩
    · intro e _ _
      refine ⟨precedes_cons (by simp) (precedes_cons (by simp)
          (precedes_append_left (noneSat_singleton (by simp))
            (download_precedes_acquire_start env))),
        precedes_cons (by simp) (precedes_cons (by simp)
          (precedes_append_left (noneSat_singleton (by simp))
            (download_precedes_end_release env))),
        precedes_of_noneSat_right
          (noneSat_cons (by simp [isRunKernel])
            (noneSat_cons (by simp [isRunKernel])
              (noneSat_append
                (noneSat_download env (by simp [isRunKernel])
                  (by simp [isRunKernel]) (by simp [isRunKernel])
                  (by simp [isRunKernel]))
                (noneSat_singleton (by simp [isRunKernel])))))⟩
    · intro data _ _ _
      refine ⟨precedes_cons (by simp) (precedes_cons (by simp)
          (precedes_append_left
            (noneSat_cons (by simp)
              (noneSat_append
                (noneSat_operation env rd data (by simp) (by simp))
                (noneSat_singleton (by simp))))
            (download_precedes_acquire_start env))),
        precedes_cons (by simp) (precedes_cons (by simp)
          (precedes_append_left
            (noneSat_cons (by simp)
              (noneSat_append
                (noneSat_operation env rd data (by simp) (by simp))
                (noneSat_singleton (by simp))))
            (download_precedes_end_release env))), ?_⟩
      refine ⟨Event.acquireMemory (rd.size.getD 0) :: Event.getClient ::
          (download_object env).1,
        Event.rayonSpawn ::
          ((operation env rd data).1 ++ [Event.releaseMemory]),
        by simp, ?_, ?_⟩
      · exact noneSat_cons (by simp)
          (noneSat_append
            (noneSat_operation env rd data (by simp) (by simp))
            (noneSat_singleton (by simp)))
      · exact noneSat_cons (by simp [isRunKernel])
          (noneSat_cons (by simp [isRunKernel])
            (noneSat_download env (by simp [isRunKernel])
              (by simp [isRunKernel]) (by simp [isRunKernel])
              (by simp [isRunKernel])))
    · intro data _ _ _ _
      refine ⟨precedes_cons (by simp) (precedes_cons (by simp)
          (precedes_append_left
            (noneSat_cons (by simp)
              (noneSat_append
                (noneSat_operation env rd data (by simp) (by simp))
                (noneSat_cons (by simp) (noneSat_singleton (by simp)))))
            (download_precedes_acquire_start env))),
        precedes_cons (by simp) (precedes_cons (by simp)
          (precedes_append_left
            (noneSat_cons (by simp)
              (noneSat_append
                (noneSat_operation env rd data (by simp) (by simp))
                (noneSat_cons (by simp) (noneSat_singleton (by simp)))))
            (download_precedes_end_release env))), ?_⟩
      refine ⟨Event.acquireMemory (rd.size.getD 0) :: Event.getClient ::
          (download_object env).1,
        Event.acquireTask ::
          ((operation env rd data).1 ++
            [Event.releaseTask, Event.releaseMemory]),
        by simp, ?_, ?_⟩
      · exact noneSat_cons (by simp)
          (noneSat_append
            (noneSat_operation env rd data (by simp) (by simp))
            (noneSat_cons (by simp) (noneSat_singleton (by simp))))
      · exact noneSat_cons (by simp [isRunKernel])
          (noneSat_cons (by simp [isRunKernel])
            (noneSat_download env (by simp [isRunKernel])
              (by simp [isRunKernel]) (by simp [isRunKernel])
              (by simp [isRunKernel])))
    · intro data _ _ _ _
      refine ⟨precedes_cons (by simp) (precedes_cons (by simp)
          (precedes_append_left (noneSat_singleton (by simp))
            (download_precedes_acquire_start env))),
        precedes_cons (by simp) (precedes_cons (by simp)
          (precedes_append_left (noneSat_singleton (by simp))
            (download_precedes_end_release env))),
        precedes_of_noneSat_right
          (noneSat_cons (by simp [isRunKernel])
            (noneSat_cons (by simp [isRunKernel])
              (noneSat_append
                (noneSat_download env (by simp [isRunKernel])
                  (by simp [isRunKernel]) (by simp [isRunKernel])
                  (by simp [isRunKernel]))
                (noneSat_singleton (by simp [isRunKernel])))))⟩

theorem conn_permit_lifecycle_witness :
    (Event.startDownload ∈ (download_object sampleEnv).1 →
      (download_object sampleEnv).1 =
        [.acquireConn, .startDownload, .endDownload, .releaseConn] ∨
      (download_object sampleEnv).1 =
        [.acquireConn, .startDownload, .releaseConn]) ∧
    Precedes (· = Event.acquireConn) (· = Event.startDownload)
      (operation_handler sampleEnv ⟨false, none, none, none⟩
        sampleRequest).1 ∧
    Precedes (· = Event.endDownload) (· = Event.releaseConn)
      (operation_handler sampleEnv ⟨false, none, none, none⟩
        sampleRequest).1 ∧
    Precedes (· = Event.releaseConn) isRunKernel
      (operation_handler sampleEnv ⟨false, none, none, none⟩
        sampleRequest).1 :=
  conn_permit_lifecycle sampleEnv ⟨false, none, none, none⟩ sampleRequest

set_option maxRecDepth 8192

/-- C2: the disk cache key of the `#[io_cached]` wrapper concatenates the
Debug renderings of all four arguments — client, request, resource manager
and memory permits — not of the request alone; since the resource manager's
rendering varies with the semaphores' instantaneous state, one and the same
request yields different cache keys, i.e. the key is not a deterministic
function of the request. -/
theorem cache_key_not_request_deterministic :
    (∀ c r m d : String, download_object_cache_key c r m d =
      c ++ "," ++ r ++ "," ++ m ++ "," ++ d) ∧
    ∃ (rd : RequestData) (m1 m2 : Nat), m1 ≠ m2 ∧
      download_object_cache_key "S3Client" (requestDataDebug rd)
          (resourceManagerDebug m1 8 8) "None" ≠
        download_object_cache_key "S3Client" (requestDataDebug rd)
          (resourceManagerDebug m2 8 8) "None" := by
  refine ⟨fun _ _ _ _ => rfl, sampleRequest, 100, 96, by decide, ?_⟩
  decide

/-- C8: a successful response carries exactly the five metadata headers of
`into_response` — octet-stream content type, lowercase dtype name, JSON
shape, JSON count, and the host's native byte order (`big` or `little`);
the conversion takes no request data, so the byte-order header cannot
depend on the request's `byte_order` field. -/
theorem response_headers (native : ByteOrder) (r : Response) :
    into_response native r =
      ([("content-type", "application/octet-stream"),
        ("x-activestorage-dtype", dtypeLowercaseName r.dtype),
        ("x-activestorage-shape", jsonNatList r.shape),
        ("x-activestorage-count", Nat.repr r.count),
        ("x-activestorage-byte-order", byteOrderName native)], r.body) ∧
    (byteOrderName native = "big" ∨ byteOrderName native = "little") :=
  ⟨rfl, by cases native <;> simp [byteOrderName]⟩

/-- C9: under `/v1`, the five fixed segments route to their reduction
handlers; every other segment is captured by `/:operation` and answered by
`unknown_operation_handler` with `UnsupportedOperation`, which maps to HTTP
status 400. -/
theorem routing_v1 :
    (v1_route "count" = .count ∧ v1_route "max" = .max ∧
      v1_route "min" = .min ∧ v1_route "sum" = .sum ∧
      v1_route "select" = .select) ∧
    ∀ op : String,
      op ∉ (["count", "max", "min", "sum", "select"] : List String) →
      v1_route op = .unknown op ∧
      unknown_operation_handler op = .unsupportedOperation op ∧
      errorStatus (unknown_operation_handler op) = 400 := by
  refine ⟨⟨by decide, by decide, by decide, by decide, by decide⟩, ?_⟩
  intro op hop
  simp only [List.mem_cons, List.not_mem_nil, or_false, not_or] at hop
  obtain ⟨h1, h2, h3, h4, h5⟩ := hop
  refine ⟨?_, rfl, rfl⟩
  unfold v1_route
  rw [if_neg h1, if_neg h2, if_neg h3, if_neg h5, if_neg h4]

theorem routing_v1_witness :
    (v1_route "count" = .count ∧ v1_route "max" = .max ∧
      v1_route "min" = .min ∧ v1_route "sum" = .sum ∧
      v1_route "select" = .select) ∧
    ("mean" ∉ (["count", "max", "min", "sum", "select"] : List String) ∧
      v1_route "mean" = .unknown "mean" ∧
      unknown_operation_handler "mean" = .unsupportedOperation "mean" ∧
      errorStatus (unknown_operation_handler "mean") = 400) :=
  ⟨routing_v1.1, by decide,
    routing_v1.2 "mean" (by decide)⟩

/-- C10: with `use_rayon` configured, `init` builds the global Rayon pool
with exactly `num_cpus − 1` threads whatever `thread_limit` says; the
`thread_limit` argument only becomes the task semaphore's capacity
(defaulting to `num_cpus − 1` when unset), and in Rayon mode no task permit
is ever acquired, so that capacity has no effect on kernel parallelism. -/
theorem rayon_mode_thread_config (args : CommandLineArgs) (ncpus : Nat)
    (h : args.use_rayon = true) :
    init args ncpus = some (ncpus - 1) ∧
    (∀ tl : Option Nat,
      init { args with thread_limit := tl } ncpus = some (ncpus - 1)) ∧
    AppState_new_task_limit args ncpus =
      some (args.thread_limit.getD (ncpus - 1)) ∧
    (args.thread_limit = none →
      AppState_new_task_limit args ncpus = some (ncpus - 1)) ∧
    (∀ env rd, Event.acquireTask ∉ (operation_handler env args rd).1) := by
  refine ⟨by simp [init, h], fun tl => by simp [init, h], ?_, ?_, ?_⟩
  · cases htl : args.thread_limit with
    | none => simp [AppState_new_task_limit, htl, Option.orElse]
    | some n => simp [AppState_new_task_limit, htl, Option.orElse]
  · intro htl
    simp [AppState_new_task_limit, htl, Option.orElse]
  · intro env rd
    refine handler_cases env args rd
      (fun tr => Event.acquireTask ∉ tr) ?_ ?_ ?_ ?_ ?_
    · intro _
      exact List.not_mem_nil _
    · intro e _ _
      exact noneSat_not_mem
        (noneSat_cons (by simp) (noneSat_cons (by simp)
          (noneSat_append
            (noneSat_download env (by simp) (by simp) (by simp) (by simp))
            (noneSat_singleton (by simp))))) rfl
    · intro data _ _ _
      exact noneSat_not_mem
        (noneSat_cons (by simp) (noneSat_cons (by simp)
          (noneSat_append
            (noneSat_download env (by simp) (by simp) (by simp) (by simp))
            (noneSat_cons (by simp)
              (noneSat_append
                (noneSat_operation env rd data (by simp) (by simp))
                (noneSat_singleton (by simp))))))) rfl
    · intro data _ _ hr _
      rw [h] at hr
      cases hr
    · intro data _ _ hr _
      rw [h] at hr
      cases hr

theorem rayon_mode_thread_config_witness :
    init ⟨true, some 1, none, none⟩ 4 = some 3 ∧
    (∀ tl : Option Nat,
      init { (⟨true, some 1, none, none⟩ : CommandLineArgs) with
        thread_limit := tl } 4 = some 3) ∧
    AppState_new_task_limit ⟨true, some 1, none, none⟩ 4 =
      some ((some 1).getD 3) ∧
    ((some 1 : Option Nat) = none →
      AppState_new_task_limit ⟨true, some 1, none, none⟩ 4 = some 3) ∧
    (∀ env rd, Event.acquireTask ∉
      (operation_handler env ⟨true, some 1, none, none⟩ rd).1) :=
  rayon_mode_thread_config ⟨true, some 1, none, none⟩ 4 rfl

end Reductionist
